import Mathlib

/-!
Verification of the task-lifecycle core of the EMS repository.

The definitions below are a shallow embedding of the JavaScript sources:

* `backend/routes/employees.js` — `updateTaskState`, the document-upload
  endpoint, the verify/reject endpoint, the task-update (PUT) route and the
  `check-expired` sweep;
* `backend/models/Employee.js` — the task schema and
  `employeeSchema.methods.updateTaskCounts`;
* `backend/fixTaskStates.js` — the `fixTaskStates` cleanup;
* `src/services/taskWorkflow.js` — `TaskWorkflowService`
  (`isTaskExpired`, `hasSubmittedDocuments`, `determineTaskState`, `acceptTask`);
* `src/utils/taskUtils.js` — `isValidTransition`, `getTaskStatus`,
  `validateStatusUpdate`;
* `src/utils/taskHelpers.js` — `handleStatusUpdate`.

Wall-clock instants are embedded as `Int`; a JS comparison
`new Date(task.endDate) < currentTime` becomes `endDate < now` on `Int`.
A missing (`undefined`) `endDate` is `Option.none`; every JS comparison
against an invalid date is `false`, matching the `none` branches below.
Boolean task flags are `Bool`; JS string fields are `String`, with the empty
string standing for an absent/`undefined` string (JS falsy).
-/

namespace EMS

/-- One submitted evidence document (an element of `task.submittedDocuments`). -/
structure Doc where
  fileName : String
  originalName : String
  filePath : String
  fileSize : Nat
  mimeType : String
  uploadedAt : Int
deriving DecidableEq

/-- A task record, with the fields the lifecycle core reads and writes.
`pendingVerification` and `documentUrl` are fields read by the frontend
helpers (`undefined`, hence `false` / `""`, on records the backend created). -/
structure Task where
  _id : String
  newTask : Bool
  active : Bool
  completed : Bool
  failed : Bool
  pendingVerification : Bool
  verificationStatus : String
  status : String
  endDate : Option Int
  submittedDocuments : List Doc
  documentUrl : String
  updatedAt : Int
deriving DecidableEq

/-- The per-employee counter summary (`employee.taskCounts`). -/
structure TaskCounts where
  active : Nat
  newTask : Nat
  completed : Nat
  failed : Nat
deriving DecidableEq

/-- An employee: an owned task list plus the counter summary. -/
structure Employee where
  tasks : List Task
  taskCounts : TaskCounts
deriving DecidableEq

/-- An admin document: the employees embedded in it. -/
structure Admin where
  employees : List Employee
deriving DecidableEq

/-- Number of the four lifecycle flags that are set on a task. -/
def flagCount (t : Task) : Nat :=
  (if t.newTask then 1 else 0) + (if t.active then 1 else 0) +
    (if t.completed then 1 else 0) + (if t.failed then 1 else 0)

/-- `TaskWorkflowService.isTaskExpired`: `now > new Date(task.endDate)`.
The backend routes use the same strict comparison
(`new Date(task.endDate) < currentTime`). -/
def isTaskExpired (t : Task) (now : Int) : Bool :=
  match t.endDate with
  | some d => d < now
  | none => false

/-- `TaskWorkflowService.hasSubmittedDocuments`:
`task.submittedDocuments && task.submittedDocuments.length > 0`. -/
def hasSubmittedDocuments (t : Task) : Bool :=
  !t.submittedDocuments.isEmpty

/-- The status-label reconciliation at the end of `updateTaskState`
(`employees.js` lines 108-120): failed ↦ "expired", completed ↦ "completed",
pending ↦ "pendingVerification", active ↦ "active", otherwise "new". -/
def statusLabel (t : Task) : String :=
  if t.failed then "expired"
  else if t.completed then "completed"
  else if t.verificationStatus == "pending" then "pendingVerification"
  else if t.active then "active"
  else if t.newTask then "new"
  else "new"

/-- `updateTaskState(task, currentTime)` from `employees.js` lines 77-121.
Completed tasks are returned unchanged; an expired, not-yet-failed task is
failed (early return, so the stored `status` is not recomputed); a task with
`verificationStatus === 'pending'` has all four flags cleared; finally the
`status` label is reconciled from the (possibly updated) flags. -/
def updateTaskState (t : Task) (currentTime : Int) : Task :=
  if t.completed then t
  else if isTaskExpired t currentTime && !t.failed then
    { t with active := false, newTask := false, completed := false, failed := true,
             verificationStatus := "expired", updatedAt := currentTime }
  else if t.verificationStatus == "pending" then
    let t2 : Task := { t with active := false, newTask := false, completed := false,
                              failed := false }
    { t2 with status := statusLabel t2 }
  else
    { t with status := statusLabel t }

/-- The exclusive five-way state record returned by
`TaskWorkflowService.determineTaskState`. -/
structure TaskState where
  newTask : Bool
  active : Bool
  completed : Bool
  failed : Bool
  pendingVerification : Bool
deriving DecidableEq

/-- Number of the five fields of a `TaskState` that are set. -/
def stateFlagCount (s : TaskState) : Nat :=
  (if s.newTask then 1 else 0) + (if s.active then 1 else 0) +
    (if s.completed then 1 else 0) + (if s.failed then 1 else 0) +
    (if s.pendingVerification then 1 else 0)

/-- `TaskWorkflowService.determineTaskState(task)` (`taskWorkflow.js` lines
31-117), with the ambient clock passed explicitly. Priority order as in the
source: completed, pendingVerification, expired-without-documents,
accepted-not-expired-no-documents, new-not-expired, then the fallback chain. -/
def determineTaskState (t : Task) (now : Int) : TaskState :=
  let isExpired := isTaskExpired t now
  let hasDocuments := hasSubmittedDocuments t
  if t.completed then ⟨false, false, true, false, false⟩
  else if t.pendingVerification then ⟨false, false, false, false, true⟩
  else if isExpired && !hasDocuments then ⟨false, false, false, true, false⟩
  else if !t.newTask && !isExpired && !hasDocuments then ⟨false, true, false, false, false⟩
  else if t.newTask && !isExpired then ⟨true, false, false, false, false⟩
  else if t.completed then ⟨false, false, true, false, false⟩
  else if t.pendingVerification then ⟨false, false, false, false, true⟩
  else if t.failed then ⟨false, false, false, true, false⟩
  else if t.active then ⟨false, true, false, false, false⟩
  else if t.newTask then ⟨true, false, false, false, false⟩
  else ⟨true, false, false, false, false⟩

/-- The four-flag state object returned by `TaskWorkflowService.acceptTask`. -/
structure WorkflowFlags where
  newTask : Bool
  active : Bool
  completed : Bool
  failed : Bool
deriving DecidableEq

/-- `TaskWorkflowService.acceptTask(task)` (`taskWorkflow.js` lines 124-137):
throws on an expired task, otherwise returns the exclusive active state.
The current flags of the task are not inspected. -/
def acceptTask (t : Task) (now : Int) : Except String WorkflowFlags :=
  if isTaskExpired t now then .error "Cannot accept expired task"
  else .ok { newTask := false, active := true, completed := false, failed := false }

/-- Errors of the verify/reject endpoint
(`POST /:employeeId/tasks/:taskId/verify`): an invalid `status` body
(`INVALID_STATUS`) or a task that is not pending verification
(`INVALID_TASK_STATUS`, the spec's `NotPendingReview`). -/
inductive VerifyErr where
  | invalidStatus
  | notPendingReview
deriving DecidableEq

/-- The verify/reject endpoint (`employees.js` lines 381-522), task level.
Validates the decision, requires `verificationStatus === 'pending'`, then
either approves (terminal completed, `verificationStatus = 'approved'`) or
rejects (back to `active = true` with `verificationStatus = 'rejected'`).
The stored `status` label is not touched by this endpoint. On error the
transaction is aborted, so the task is unchanged. -/
def verifyTask (t : Task) (status : String) (currentTime : Int) : Except VerifyErr Task :=
  if !(status == "completed" || status == "rejected") then .error .invalidStatus
  else if t.verificationStatus != "pending" then .error .notPendingReview
  else if status == "completed" then
    .ok { t with completed := true, active := false, newTask := false, failed := false,
                 verificationStatus := "approved", updatedAt := currentTime }
  else
    .ok { t with completed := false, active := true, newTask := false, failed := false,
                 verificationStatus := "rejected", updatedAt := currentTime }

/-- The document-upload endpoint
(`POST /:employeeId/tasks/:taskId/documents`, `employees.js` lines 212-320),
task level: push the document, then move to pending verification only when
the stored `status` is `'new'` or `'active'`. -/
def uploadDocument (t : Task) (d : Doc) : Task :=
  let t1 : Task := { t with submittedDocuments := t.submittedDocuments ++ [d] }
  if t1.status == "new" || t1.status == "active" then
    { t1 with status := "pendingVerification", verificationStatus := "pending" }
  else t1

/-- Errors of the task-update route (`PUT /:id/tasks/:taskId`) status switch. -/
inductive PutErr where
  | onlyPendingCanComplete
  | completedCannotFail
  | cannotSetPendingDirectly
  | cannotSetExpired
  | useVerifyForRejected
  | invalidStatus
deriving DecidableEq

/-- The `switch (status)` of the task-update route (`employees.js` lines
623-713): `'active'` unconditionally reactivates, `'completed'` requires a
pending verification, `'failed'` is refused on completed tasks, and the
remaining statuses are refused. -/
def putTaskStatusCore (t : Task) (status : String) : Except PutErr Task :=
  if status == "active" then
    .ok { t with active := true, completed := false, failed := false, newTask := false,
                 verificationStatus := "" }
  else if status == "completed" then
    if t.verificationStatus != "pending" then .error .onlyPendingCanComplete
    else
      .ok { t with completed := true, active := false, failed := false, newTask := false,
                   verificationStatus := "approved" }
  else if status == "failed" then
    if t.completed then .error .completedCannotFail
    else
      .ok { t with failed := true, active := false, completed := false, newTask := false,
                   verificationStatus := "expired" }
  else if status == "pendingVerification" then .error .cannotSetPendingDirectly
  else if status == "expired" then .error .cannotSetExpired
  else if status == "rejected" then .error .useVerifyForRejected
  else .error .invalidStatus

/-- The status reconciliation of the task-update route (`employees.js` lines
716-726): completed ↦ "completed", failed ↦ "failed",
pending ↦ "pendingVerification", active ↦ "active", otherwise "new". -/
def putStatusLabel (t : Task) : Task :=
  { t with status :=
      if t.completed then "completed"
      else if t.failed then "failed"
      else if t.verificationStatus == "pending" then "pendingVerification"
      else if t.active then "active"
      else "new" }

/-- A status-only request to the task-update route, task level: the status
switch, the route's own label reconciliation, then the final
`updateTaskState(task, new Date())` call (`employees.js` line 737). -/
def putTaskStatus (t : Task) (status : String) (currentTime : Int) : Except PutErr Task :=
  (putTaskStatusCore t status).map fun t1 => updateTaskState (putStatusLabel t1) currentTime

/-- A request to the task-update route that carries uploaded files
(`employees.js` lines 589-620, followed by line 737): when the task is not
already pending, all four flags are cleared and `verificationStatus` is set
to `'pending'`; the documents are appended, the label set, and
`updateTaskState` runs last. -/
def putTaskFiles (t : Task) (docs : List Doc) (currentTime : Int) : Task :=
  let t1 : Task :=
    if t.verificationStatus != "pending" then
      { t with active := false, completed := false, failed := false, newTask := false,
               verificationStatus := "pending" }
    else t
  let t2 : Task := { t1 with submittedDocuments := t1.submittedDocuments ++ docs,
                             status := "pendingVerification" }
  updateTaskState t2 currentTime

/-- The flag update the expiration sweep applies to an expired task
(`employees.js` lines 828-833). Note `newTask` is not cleared. -/
def expireTaskUpdate (t : Task) (now : Int) : Task :=
  { t with active := false, completed := false, failed := true,
           verificationStatus := "expired", updatedAt := now }

/-- One task step of the expiration sweep (`employees.js` lines 822-846):
skip terminal tasks, fail expired ones; the boolean reports whether the task
was counted in `updatedCount`. -/
def sweepTaskStep (t : Task) (now : Int) : Task × Bool :=
  if t.completed || t.failed then (t, false)
  else if isTaskExpired t now then (expireTaskUpdate t now, true)
  else (t, false)

/-- The counter adjustment the sweep performs for one expired task
(`employees.js` lines 835-842): the stored `status` is read (it was not
changed by the flag update), `active` is decremented with the
`Math.max(0, (counts.active || 1) - 1)` idiom — which on `Nat` is truncated
subtraction — and `failed` is incremented. The `verificationStatus ===
'pending'` else-branch of the source is dead (the status was just set to
`'expired'`) and does nothing. -/
def sweepCountsUpdate (t : Task) (c : TaskCounts) : TaskCounts :=
  let c1 := if t.status == "active" then { c with active := c.active - 1 } else c
  { c1 with failed := c1.failed + 1 }

/-- The per-employee task loop of the expiration sweep, threading the
employee's `taskCounts` and the number of updated tasks. -/
def sweepTasks (now : Int) : List Task → TaskCounts → List Task × TaskCounts × Nat
  | [], c => ([], c, 0)
  | t :: ts, c =>
    let step := sweepTaskStep t now
    let c2 := if step.2 then sweepCountsUpdate t c else c
    let r := sweepTasks now ts c2
    (step.1 :: r.1, r.2.1, r.2.2 + (if step.2 then 1 else 0))

/-- The sweep applied to one employee. -/
def sweepEmployee (e : Employee) (now : Int) : Employee × Nat :=
  let r := sweepTasks now e.tasks e.taskCounts
  ({ e with tasks := r.1, taskCounts := r.2.1 }, r.2.2)

/-- The sweep applied to one (query-matched) admin. -/
def sweepAdmin (a : Admin) (now : Int) : Admin × Nat :=
  let rs := a.employees.map fun e => sweepEmployee e now
  ({ a with employees := rs.map Prod.fst }, (rs.map Prod.snd).sum)

/-- The `$elemMatch` predicate of the sweep's admin query (`employees.js`
lines 800-811): an active or pending-verification task whose deadline has
passed and which is not yet terminal. -/
def taskMatchesExpired (t : Task) (now : Int) : Bool :=
  (t.active || t.verificationStatus == "pending") && isTaskExpired t now &&
    !t.completed && !t.failed

/-- Whether the admin is selected by the sweep's query. -/
def adminMatchesExpired (a : Admin) (now : Int) : Bool :=
  a.employees.any fun e => e.tasks.any fun t => taskMatchesExpired t now

/-- The `POST /tasks/check-expired` endpoint (`employees.js` lines 791-884):
query-matched admins are swept, the others are untouched; the total
`updatedCount` is returned. -/
def checkExpired (admins : List Admin) (now : Int) : List Admin × Nat :=
  let rs := admins.map fun a =>
    if adminMatchesExpired a now then sweepAdmin a now else (a, 0)
  (rs.map Prod.fst, (rs.map Prod.snd).sum)

/-- `employeeSchema.methods.updateTaskCounts` (`Employee.js` lines 116-146):
exclusive counting with priority completed, failed, active, newTask.
The JS `=== true` / `!== true` tests on the boolean flags are the flags
themselves and their negations. -/
def updateTaskCounts (e : Employee) : Employee :=
  { e with taskCounts :=
    { completed := (e.tasks.filter fun t => t.completed).length
      failed := (e.tasks.filter fun t => t.failed && !t.completed).length
      active := (e.tasks.filter fun t => t.active && !t.completed && !t.failed).length
      newTask :=
        (e.tasks.filter fun t => t.newTask && !t.active && !t.completed && !t.failed).length } }

/-- Sum of the four buckets of a `TaskCounts`. -/
def sumTaskCounts (c : TaskCounts) : Nat :=
  c.newTask + c.active + c.completed + c.failed

/-- Whether at least one of the four lifecycle flags is set. -/
def anyFlag (t : Task) : Bool :=
  t.newTask || t.active || t.completed || t.failed

/-- The per-task fix of the `fixTaskStates` cleanup script (lines 39-89):
only tasks with more than one flag set are rewritten, with priority
completed, failed, active, then default newTask. -/
def fixTaskState (t : Task) : Task :=
  if 1 < flagCount t then
    if t.completed then
      { t with newTask := false, active := false, completed := true, failed := false }
    else if t.failed then
      { t with newTask := false, active := false, completed := false, failed := true }
    else if t.active then
      { t with newTask := false, active := true, completed := false, failed := false }
    else
      { t with newTask := true, active := false, completed := false, failed := false }
  else t

/-- `ALLOWED_TRANSITIONS` from `taskUtils.js` lines 11-18, as a partial map;
`none` models a status that is not a key of the object. -/
def ALLOWED_TRANSITIONS (s : String) : Option (List String) :=
  if s == "new" then some ["active", "failed"]
  else if s == "active" then some ["pendingVerification", "failed"]
  else if s == "pendingVerification" then some ["completed", "rejected", "failed"]
  else if s == "rejected" then some ["pendingVerification", "failed"]
  else if s == "completed" then some []
  else if s == "failed" then some []
  else none

/-- `isValidTransition(currentStatus, newStatus)` (`taskUtils.js` lines
26-32): a falsy (empty) current status is refused, a same-status no-op is
accepted, otherwise the table (defaulting to `[]`) is consulted. -/
def isValidTransition (currentStatus newStatus : String) : Bool :=
  if currentStatus == "" then false
  else if currentStatus == newStatus then true
  else ((ALLOWED_TRANSITIONS currentStatus).getD []).contains newStatus

/-- `getTaskStatus(task)` (`taskUtils.js` lines 39-71), clock explicit. -/
def getTaskStatus (t : Task) (now : Int) : String :=
  let isExpired := isTaskExpired t now
  if t.completed && t.verificationStatus == "verified" then "completed"
  else if t.failed || (isExpired && !(t.verificationStatus == "verified")) then "failed"
  else if t.verificationStatus == "pending" then "pendingVerification"
  else if t.verificationStatus == "rejected" then "rejected"
  else if t.active then "active"
  else "new"

/-- The diagnostic message `validateStatusUpdate` attaches to an invalid
transition: it carries the attempted current/target pair. -/
def invalidTransitionReason (c n : String) : String :=
  "Invalid status transition from " ++ c ++ " to " ++ n

/-- Result object of `validateStatusUpdate`. -/
structure ValidationResult where
  isValid : Bool
  reason : Option String
deriving DecidableEq

/-- `validateStatusUpdate(task, newStatus)` (`taskUtils.js` lines 144-164). -/
def validateStatusUpdate (t : Task) (now : Int) (newStatus : String) : ValidationResult :=
  let currentStatus := getTaskStatus t now
  if !isValidTransition currentStatus newStatus then
    ⟨false, some (invalidTransitionReason currentStatus newStatus)⟩
  else if newStatus == "pendingVerification" && t.documentUrl == "" then
    ⟨false, some "Cannot submit for verification without a document"⟩
  else ⟨true, none⟩

/-- The transition table the spec's claim C4 enumerates, written from the
claim's words, to be compared with `isValidTransition`. -/
def specLegalTransitions : List (String × String) :=
  [("new", "active"), ("new", "failed"),
   ("active", "pendingVerification"), ("active", "failed"),
   ("pendingVerification", "completed"), ("pendingVerification", "rejected"),
   ("pendingVerification", "failed"),
   ("rejected", "pendingVerification"), ("rejected", "failed")]

/-- The six derived statuses of the legal-transition table. -/
def allStatuses : List String :=
  ["new", "active", "pendingVerification", "rejected", "completed", "failed"]

/-- The update payload built by the frontend helper `handleStatusUpdate`;
`none` models a field the payload does not set. -/
structure UpdateData where
  status : Option String
  newTask : Option Bool
  active : Option Bool
  completed : Option Bool
  failed : Option Bool
  verificationStatus : Option String
deriving DecidableEq

/-- The `validTransitions` table local to `handleStatusUpdate`
(`taskHelpers.js` lines 18-23). It differs from `ALLOWED_TRANSITIONS`. -/
def hsuValidTransitions (s : String) : Option (List String) :=
  if s == "new" then some ["active"]
  else if s == "active" then some ["pendingVerification", "failed"]
  else if s == "pendingVerification" then some ["completed", "rejected"]
  else if s == "rejected" then some ["active", "failed"]
  else none

/-- `handleStatusUpdate(task, newStatus, updateTaskAPI)` (`taskHelpers.js`),
up to the API call: the missing-id guard, the terminal-state guard, the
transition-table guard, then the payload switch. -/
def handleStatusUpdate (t : Task) (newStatus : String) : Except String UpdateData :=
  if t._id == "" then .error "No task ID provided"
  else if t.completed || t.failed then
    .error ("Task " ++ t._id ++ " is already in terminal state (" ++
      (if t.completed then "completed" else "failed") ++ ")")
  else if (match hsuValidTransitions t.status with
           | some allowed => !allowed.contains newStatus
           | none => false) then
    .error ("Invalid status transition from " ++ t.status ++ " to " ++ newStatus)
  else if newStatus == "active" then
    .ok { status := some "active", newTask := some false, active := some true,
          completed := none, failed := none, verificationStatus := none }
  else if newStatus == "pendingVerification" then
    if t.documentUrl == "" then
      .error "Cannot submit for verification without document"
    else
      .ok { status := some "pendingVerification", verificationStatus := some "pending",
            newTask := none, active := none, completed := none, failed := none }
  else if newStatus == "completed" then
    if t.verificationStatus != "pending" then
      .error "Only tasks pending verification can be completed"
    else
      .ok { status := some "completed", verificationStatus := some "approved",
            active := some false, completed := some true, newTask := none, failed := none }
  else if newStatus == "rejected" then
    .ok { status := some "rejected", verificationStatus := some "rejected",
          active := some false, newTask := none, completed := none, failed := none }
  else if newStatus == "failed" then
    .ok { status := some "failed", verificationStatus := some "expired",
          active := some false, failed := some true, newTask := none, completed := none }
  else .error ("Unhandled status update: " ++ newStatus)

/-- Whether an operation result, when successful, carries a task with exactly
one lifecycle flag set (errors count as vacuously fine). -/
def okFlagCountOne {ε : Type} (x : Except ε Task) : Bool :=
  match x with
  | .ok r => flagCount r == 1
  | .error _ => true

/-! Concrete records used by counterexamples and witnesses. -/

/-- A concrete uploaded document. -/
def doc1 : Doc :=
  { fileName := "report-1.pdf", originalName := "report.pdf",
    filePath := "/uploads/report-1.pdf", fileSize := 100,
    mimeType := "application/pdf", uploadedAt := 1 }

/-- A second concrete uploaded document. -/
def doc2 : Doc :=
  { fileName := "report-2.pdf", originalName := "report.pdf",
    filePath := "/uploads/report-2.pdf", fileSize := 120,
    mimeType := "application/pdf", uploadedAt := 8 }

/-- A freshly assigned task (schema defaults), deadline at time 100. -/
def baseTask : Task :=
  { _id := "t1", newTask := true, active := false, completed := false, failed := false,
    pendingVerification := false, verificationStatus := "", status := "new",
    endDate := some 100, submittedDocuments := [], documentUrl := "", updatedAt := 0 }

/-- The task after acceptance: active, deadline not reached. -/
def activeTask : Task :=
  { baseTask with newTask := false, active := true, status := "active" }

/-- A task approved through verification: terminal completed. -/
def completedTask : Task :=
  { baseTask with
    newTask := false
    completed := true
    verificationStatus := "approved"
    status := "completed" }

/-- A task awaiting review (all four flags cleared, evidence submitted),
deadline not yet reached. -/
def pendingTask : Task :=
  { baseTask with
    newTask := false
    verificationStatus := "pending"
    status := "pendingVerification"
    submittedDocuments := [doc1] }

/-- A task awaiting review whose deadline (5) has passed. -/
def pendingExpiredTask : Task :=
  { pendingTask with endDate := some 5 }

/-- An active task that just had evidence uploaded through the documents
endpoint: it keeps `active = true` while `verificationStatus` is pending. -/
def pendingActiveTask : Task :=
  { activeTask with
    verificationStatus := "pending"
    status := "pendingVerification"
    submittedDocuments := [doc1] }

/-- A still-new task whose deadline (5) has passed. -/
def newExpiredTask : Task :=
  { baseTask with endDate := some 5 }

/-- A task whose derived `getTaskStatus` is "completed"
(the frontend checks `verificationStatus === 'verified'`). -/
def verifiedTask : Task :=
  { baseTask with
    newTask := false
    completed := true
    verificationStatus := "verified"
    status := "completed" }

/-- An employee owning a single zero-flag (pending-verification) task. -/
def empZero : Employee :=
  { tasks := [pendingTask], taskCounts := ⟨0, 0, 0, 0⟩ }

/-! Claim theorems. -/

/-- C10: for every input task, `TaskWorkflowService.determineTaskState`
returns a record in which exactly one of the five fields
{newTask, active, completed, failed, pendingVerification} is true. -/
theorem determineTaskState_exclusive (t : Task) (now : Int) :
    stateFlagCount (determineTaskState t now) = 1 := by
  simp only [determineTaskState]
  repeat' split
  all_goals rfl

/-- C4: over the six lifecycle statuses, `isValidTransition` accepts exactly
the pairs of the legal table plus every same-status no-op; moreover, whenever
a transition is refused, `validateStatusUpdate` reports it as invalid with a
diagnostic carrying the attempted current/target pair. -/
theorem transition_validator_table :
    ((allStatuses.all fun c => allStatuses.all fun n =>
        isValidTransition c n == (c == n || specLegalTransitions.contains (c, n))) = true) ∧
    (∀ (t : Task) (now : Int) (s : String),
        isValidTransition (getTaskStatus t now) s = false →
        validateStatusUpdate t now s =
          ⟨false, some (invalidTransitionReason (getTaskStatus t now) s)⟩) := by
  refine ⟨by decide, ?_⟩
  intro t now s h
  simp [validateStatusUpdate, h]

/-- Witness for C4: a task whose derived status is "completed" cannot be
moved to "active", and the diagnostic carries the pair. -/
theorem transition_validator_table_witness :
    validateStatusUpdate verifiedTask 5 "active" =
      ⟨false, some (invalidTransitionReason (getTaskStatus verifiedTask 5) "active")⟩ :=
  transition_validator_table.2 verifiedTask 5 "active" (by decide)

/-- C9 (amended): `acceptTask` fails with the task-expired error exactly when
the deadline has passed (returning no active state then), and otherwise
returns the exclusive active flag set regardless of the task's current
status — it performs no not-currently-new check. -/
theorem acceptTask_spec (t : Task) (now : Int) :
    (isTaskExpired t now = true → acceptTask t now = .error "Cannot accept expired task") ∧
    (isTaskExpired t now = false →
      acceptTask t now =
        .ok { newTask := false, active := true, completed := false, failed := false }) := by
  constructor <;> intro h <;> simp [acceptTask, h]

/-- Witness for C9: an expired task is refused, a non-expired one accepted. -/
theorem acceptTask_spec_witness :
    acceptTask newExpiredTask 10 = .error "Cannot accept expired task" ∧
    acceptTask activeTask 5 =
      .ok { newTask := false, active := true, completed := false, failed := false } :=
  ⟨(acceptTask_spec newExpiredTask 10).1 (by decide),
   (acceptTask_spec activeTask 5).2 (by decide)⟩

/-- Counterexample for C9 as stated: `acceptTask` on a task that is not
currently new (here: already active) succeeds and returns the active state
instead of failing with an invalid-transition error. -/
theorem acceptTask_no_new_check :
    activeTask.newTask = false ∧ isTaskExpired activeTask 5 = false ∧
    acceptTask activeTask 5 =
      .ok { newTask := false, active := true, completed := false, failed := false } :=
  ⟨rfl, rfl, rfl⟩

/-- C8: under a valid decision, the verify endpoint fails with the
not-pending-review error exactly when `verificationStatus` is not 'pending'
(the transaction is aborted, so the task is untouched); when it is pending,
approval yields the terminal completed state and rejection yields
`active = true` with `verificationStatus = 'rejected'`. -/
theorem verifyTask_pending_review (t : Task) (s : String) (now : Int)
    (hs : s = "completed" ∨ s = "rejected") :
    (verifyTask t s now = .error .notPendingReview ↔ ¬ t.verificationStatus = "pending") ∧
    (t.verificationStatus = "pending" → s = "completed" →
      verifyTask t s now =
        .ok { t with completed := true, active := false, newTask := false, failed := false,
                     verificationStatus := "approved", updatedAt := now }) ∧
    (t.verificationStatus = "pending" → s = "rejected" →
      verifyTask t s now =
        .ok { t with completed := false, active := true, newTask := false, failed := false,
                     verificationStatus := "rejected", updatedAt := now }) := by
  rcases hs with h | h <;> subst h <;>
    by_cases hp : t.verificationStatus = "pending" <;>
      simp [verifyTask, hp]

/-- Witness for C8: rejecting a concrete pending task. -/
theorem verifyTask_pending_review_witness :
    (verifyTask pendingTask "rejected" 7 = .error .notPendingReview ↔
        ¬ pendingTask.verificationStatus = "pending") ∧
    (pendingTask.verificationStatus = "pending" → "rejected" = "completed" →
      verifyTask pendingTask "rejected" 7 =
        .ok { pendingTask with completed := true, active := false, newTask := false,
                               failed := false, verificationStatus := "approved",
                               updatedAt := 7 }) ∧
    (pendingTask.verificationStatus = "pending" → "rejected" = "rejected" →
      verifyTask pendingTask "rejected" 7 =
        .ok { pendingTask with completed := false, active := true, newTask := false,
                               failed := false, verificationStatus := "rejected",
                               updatedAt := 7 }) :=
  verifyTask_pending_review pendingTask "rejected" 7 (Or.inr rfl)

/-- Counterexample for C2 as stated: a pending-verification task whose
deadline has passed IS marked failed with `verificationStatus = 'expired'`,
both by `updateTaskState` and by the expiration sweep. -/
theorem pending_overridden_by_expiration :
    pendingExpiredTask.verificationStatus = "pending" ∧
    isTaskExpired pendingExpiredTask 10 = true ∧
    (updateTaskState pendingExpiredTask 10).failed = true ∧
    (updateTaskState pendingExpiredTask 10).verificationStatus = "expired" ∧
    (sweepTaskStep pendingExpiredTask 10).1.failed = true ∧
    (sweepTaskStep pendingExpiredTask 10).1.verificationStatus = "expired" := by
  refine ⟨rfl, rfl, rfl, rfl, rfl, rfl⟩

/-- C2 (amended): a non-terminal task with `verificationStatus = 'pending'`
is left in pendingVerification by `updateTaskState` and untouched by the
sweep only while its deadline has not passed; once expired, both mark it
failed with `verificationStatus = 'expired'` (expiration is checked before
the pending-review rule). Only `determineTaskState`, which keys on the
`pendingVerification` flag, keeps a pending task pending when expired. -/
theorem pending_vs_expiration (t : Task) (now : Int)
    (hp : t.verificationStatus = "pending") (hc : t.completed = false)
    (hf : t.failed = false) :
    (isTaskExpired t now = false →
      (updateTaskState t now).failed = false ∧
      (updateTaskState t now).verificationStatus = "pending" ∧
      (updateTaskState t now).status = "pendingVerification" ∧
      (sweepTaskStep t now).1 = t) ∧
    (isTaskExpired t now = true →
      (updateTaskState t now).failed = true ∧
      (updateTaskState t now).verificationStatus = "expired" ∧
      (sweepTaskStep t now).1.failed = true ∧
      (sweepTaskStep t now).1.verificationStatus = "expired") ∧
    (t.pendingVerification = true →
      determineTaskState t now = ⟨false, false, false, false, true⟩) := by
  refine ⟨fun h => ?_, fun h => ?_, fun h => ?_⟩
  · simp [updateTaskState, sweepTaskStep, statusLabel, hp, hc, hf, h]
  · simp [updateTaskState, sweepTaskStep, expireTaskUpdate, hp, hc, hf, h]
  · simp [determineTaskState, hc, h]

/-- Witness for C2 (amended): the unexpired pending task stays pending, the
expired one is failed by both the per-task update and the sweep. -/
theorem pending_vs_expiration_witness :
    ((updateTaskState pendingTask 10).failed = false ∧
     (updateTaskState pendingTask 10).verificationStatus = "pending" ∧
     (updateTaskState pendingTask 10).status = "pendingVerification" ∧
     (sweepTaskStep pendingTask 10).1 = pendingTask) ∧
    ((updateTaskState pendingExpiredTask 10).failed = true ∧
     (updateTaskState pendingExpiredTask 10).verificationStatus = "expired" ∧
     (sweepTaskStep pendingExpiredTask 10).1.failed = true ∧
     (sweepTaskStep pendingExpiredTask 10).1.verificationStatus = "expired") :=
  ⟨(pending_vs_expiration pendingTask 10 rfl rfl rfl).1 rfl,
   (pending_vs_expiration pendingExpiredTask 10 rfl rfl rfl).2.1 rfl⟩

/-- Helper: `updateTaskState` never raises the number of set flags above one. -/
theorem flagCount_updateTaskState_le (t : Task) (now : Int) (h : flagCount t ≤ 1) :
    flagCount (updateTaskState t now) ≤ 1 := by
  unfold updateTaskState
  split
  · exact h
  · split
    · simp [flagCount]
    · split
      · simp [flagCount]
      · exact h

/-- Helper: `updateTaskState` keeps an exclusive flag set exclusive when the
task is not pending verification. -/
theorem flagCount_updateTaskState_one (t : Task) (now : Int) (h1 : flagCount t = 1)
    (h2 : (t.verificationStatus == "pending") = false) :
    flagCount (updateTaskState t now) = 1 := by
  unfold updateTaskState
  split
  · exact h1
  · split
    · simp [flagCount]
    · split
      · simp_all
      · exact h1

/-- Helper: a successful verify decision leaves exactly one flag set. -/
theorem okFlagCountOne_verifyTask (t : Task) (s : String) (now : Int) :
    okFlagCountOne (verifyTask t s now) = true := by
  unfold verifyTask
  repeat' split
  all_goals simp [okFlagCountOne, flagCount]

/-- Helper: the route's status-label pass does not change the flags. -/
theorem flagCount_putStatusLabel (t : Task) : flagCount (putStatusLabel t) = flagCount t :=
  rfl

/-- Helper: a successful status update through the task-update route leaves
exactly one flag set. -/
theorem okFlagCountOne_putTaskStatus (t : Task) (s : String) (now : Int) :
    okFlagCountOne (putTaskStatus t s now) = true := by
  unfold putTaskStatus putTaskStatusCore
  repeat' split
  all_goals simp only [Except.map, okFlagCountOne]
  all_goals rw [beq_iff_eq]
  all_goals apply flagCount_updateTaskState_one
  all_goals simp [flagCount, putStatusLabel]

/-- Helper: a file-carrying task update leaves at most one flag set. -/
theorem flagCount_putTaskFiles (t : Task) (ds : List Doc) (now : Int)
    (h : flagCount t ≤ 1) :
    flagCount (putTaskFiles t ds now) ≤ 1 := by
  unfold putTaskFiles
  apply flagCount_updateTaskState_le
  split
  · simp [flagCount]
  · simpa [flagCount] using h

/-- Helper: the documents endpoint does not touch the flags. -/
theorem flagCount_uploadDocument (t : Task) (d : Doc) :
    flagCount (uploadDocument t d) = flagCount t := by
  simp only [uploadDocument]
  split <;> rfl

/-- Helper: the cleanup script always leaves at most one flag set. -/
theorem flagCount_fixTaskState (t : Task) : flagCount (fixTaskState t) ≤ 1 := by
  unfold fixTaskState
  split
  · repeat' split
    all_goals simp [flagCount]
  · omega

/-- Helper: the sweep's flag update keeps at most one flag set provided the
task was not still new. -/
theorem flagCount_sweepTaskStep (t : Task) (now : Int) (h : flagCount t ≤ 1)
    (hn : t.newTask = false) :
    flagCount (sweepTaskStep t now).1 ≤ 1 := by
  unfold sweepTaskStep expireTaskUpdate
  split
  · exact h
  · split
    · simp [flagCount, hn]
    · exact h

/-- C1 (amended): starting from a task with at most one flag set, every
mutating operation of the core leaves at most one flag set — with two
deviations from the claim as stated: the pending-verification state has all
four flags false (so "exactly one" fails, see the counterexample), and the
sweep preserves the bound only for tasks that are no longer new (it does not
clear `newTask` when failing an expired new task). -/
theorem task_flag_exclusivity_amended (t : Task) (now : Int) (s : String) (d : Doc)
    (ds : List Doc) (h : flagCount t ≤ 1) :
    flagCount (updateTaskState t now) ≤ 1 ∧
    okFlagCountOne (verifyTask t s now) = true ∧
    okFlagCountOne (putTaskStatus t s now) = true ∧
    flagCount (putTaskFiles t ds now) ≤ 1 ∧
    flagCount (uploadDocument t d) = flagCount t ∧
    flagCount (fixTaskState t) ≤ 1 ∧
    (t.newTask = false → flagCount (sweepTaskStep t now).1 ≤ 1) :=
  ⟨flagCount_updateTaskState_le t now h, okFlagCountOne_verifyTask t s now,
   okFlagCountOne_putTaskStatus t s now, flagCount_putTaskFiles t ds now h,
   flagCount_uploadDocument t d, flagCount_fixTaskState t,
   fun hn => flagCount_sweepTaskStep t now h hn⟩

/-- Witness for C1 (amended), at a concrete accepted task. -/
theorem task_flag_exclusivity_amended_witness :
    flagCount (updateTaskState activeTask 5) ≤ 1 ∧
    okFlagCountOne (verifyTask activeTask "active" 5) = true ∧
    okFlagCountOne (putTaskStatus activeTask "active" 5) = true ∧
    flagCount (putTaskFiles activeTask [doc1] 5) ≤ 1 ∧
    flagCount (uploadDocument activeTask doc1) = flagCount activeTask ∧
    flagCount (fixTaskState activeTask) ≤ 1 ∧
    flagCount (sweepTaskStep activeTask 5).1 ≤ 1 := by
  have h := task_flag_exclusivity_amended activeTask 5 "active" doc1 [doc1] (by decide)
  exact ⟨h.1, h.2.1, h.2.2.1, h.2.2.2.1, h.2.2.2.2.1, h.2.2.2.2.2.1,
         h.2.2.2.2.2.2 rfl⟩

/-- Counterexample for C1 as stated: the engine moves a task with exactly one
flag set (active, evidence just uploaded) to zero flags set when it is
pending verification, and the sweep moves an expired new task to two flags
set (`newTask` is not cleared). -/
theorem exclusivity_counterexample :
    flagCount pendingActiveTask = 1 ∧
    flagCount (updateTaskState pendingActiveTask 10) = 0 ∧
    flagCount newExpiredTask = 1 ∧
    flagCount (sweepTaskStep newExpiredTask 10).1 = 2 := by
  refine ⟨rfl, rfl, rfl, rfl⟩

/-- Helper: the four exclusive buckets of `updateTaskCounts` partition the
tasks that have at least one lifecycle flag set. -/
theorem counts_partition (ts : List Task) :
    (ts.filter fun t => t.newTask && !t.active && !t.completed && !t.failed).length +
      (ts.filter fun t => t.active && !t.completed && !t.failed).length +
      (ts.filter fun t => t.completed).length +
      (ts.filter fun t => t.failed && !t.completed).length
    = (ts.filter anyFlag).length := by
  induction ts with
  | nil => rfl
  | cons t ts ih =>
    simp only [List.filter_cons]
    cases hn : t.newTask <;> cases ha : t.active <;> cases hc : t.completed <;>
      cases hf : t.failed <;>
      simp [anyFlag, hn, ha, hc, hf] <;> omega

/-- C3 (amended): after `updateTaskCounts` recomputes the buckets, their sum
equals the number of tasks having at least one lifecycle flag set — which is
at most, but not always equal to, the length of the task list (tasks with
all four flags false, i.e. pending verification, fall into no bucket). -/
theorem updateTaskCounts_sum (e : Employee) :
    sumTaskCounts (updateTaskCounts e).taskCounts = (e.tasks.filter anyFlag).length ∧
    sumTaskCounts (updateTaskCounts e).taskCounts ≤ e.tasks.length := by
  have h := counts_partition e.tasks
  have hle := List.length_filter_le anyFlag e.tasks
  constructor
  · simpa [updateTaskCounts, sumTaskCounts] using h
  · simp only [updateTaskCounts, sumTaskCounts]
    omega

/-- Counterexample for C3 as stated: an employee whose single task is pending
verification (all flags false) has bucket sum 0 but one task. -/
theorem counts_sum_counterexample :
    sumTaskCounts (updateTaskCounts empZero).taskCounts = 0 ∧
    empZero.tasks.length = 1 :=
  ⟨rfl, rfl⟩

/-- C5 (amended): on a terminal (completed or failed) task, the frontend
status-update helper refuses every status change with the terminal-state
message, and the verify endpoint refuses any decision once
`verificationStatus` is no longer 'pending'; however, the backend task-update
route's 'active' branch and `TaskWorkflowService.acceptTask` have no
terminal guard: on an unexpired completed task both succeed and produce the
active flag set. -/
theorem terminal_guards_amended (t : Task) (s : String) (now : Int)
    (hid : ¬ t._id = "") (hterm : t.completed = true ∨ t.failed = true) :
    handleStatusUpdate t s =
      .error ("Task " ++ t._id ++ " is already in terminal state (" ++
        (if t.completed then "completed" else "failed") ++ ")") ∧
    ((s = "completed" ∨ s = "rejected") → ¬ t.verificationStatus = "pending" →
      verifyTask t s now = .error .notPendingReview) ∧
    (t.completed = true → isTaskExpired t now = false →
      putTaskStatus t "active" now =
        .ok { t with newTask := false, active := true, completed := false, failed := false,
                     verificationStatus := "", status := "active" }) ∧
    (isTaskExpired t now = false →
      acceptTask t now =
        .ok { newTask := false, active := true, completed := false, failed := false }) := by
  refine ⟨?_, ?_, ?_, ?_⟩
  · rcases hterm with hc | hf
    · simp [handleStatusUpdate, hid, hc]
    · rcases hcc : t.completed with _ | _ <;> simp [handleStatusUpdate, hid, hf, hcc]
  · rintro (rfl | rfl) hp <;> simp [verifyTask, hp]
  · intro hc hexp
    have hexp2 :
        isTaskExpired
          { t with newTask := false, active := true, completed := false, failed := false,
                   verificationStatus := "", status := "active" } now = false := hexp
    simp [putTaskStatus, putTaskStatusCore, Except.map, putStatusLabel, updateTaskState,
          statusLabel, hexp2]
  · intro hexp
    simp [acceptTask, hexp]

/-- Witness for C5 (amended), on the concrete completed task. -/
theorem terminal_guards_amended_witness :
    handleStatusUpdate completedTask "completed" =
      .error ("Task " ++ completedTask._id ++ " is already in terminal state (" ++
        (if completedTask.completed then "completed" else "failed") ++ ")") ∧
    verifyTask completedTask "completed" 5 = .error .notPendingReview ∧
    putTaskStatus completedTask "active" 5 =
      .ok { completedTask with newTask := false, active := true, completed := false,
                               failed := false, verificationStatus := "",
                               status := "active" } ∧
    acceptTask completedTask 5 =
      .ok { newTask := false, active := true, completed := false, failed := false } := by
  have h := terminal_guards_amended completedTask "completed" 5 (by decide) (Or.inl rfl)
  exact ⟨h.1, h.2.1 (Or.inl rfl) (by decide), h.2.2.1 rfl rfl, h.2.2.2 rfl⟩

/-- Counterexample for C5 as stated: a completed (terminal) task is
reactivated without error by the task-update route's 'active' branch, and
`acceptTask` likewise returns the active state instead of failing. -/
theorem terminal_immutability_counterexample :
    completedTask.completed = true ∧
    putTaskStatus completedTask "active" 5 =
      .ok { completedTask with newTask := false, active := true, completed := false,
                               failed := false, verificationStatus := "",
                               status := "active" } ∧
    acceptTask completedTask 5 =
      .ok { newTask := false, active := true, completed := false, failed := false } :=
  ⟨rfl, rfl, rfl⟩

/-- The task state after the admin rejects the first submission: the verify
endpoint sets the flags and `verificationStatus` but never updates the
stored `status`, which stays 'pendingVerification'. -/
def rejectedTask : Task :=
  { activeTask with
    newTask := false
    active := true
    completed := false
    failed := false
    verificationStatus := "rejected"
    status := "pendingVerification"
    submittedDocuments := [doc1]
    updatedAt := 7 }

/-- C6 (code run): submit evidence, reject, resubmit through the documents
endpoint. The rejection correctly yields an active task with
`verificationStatus = 'rejected'` and the resubmission appends (not
replaces) the evidence — but because the stored `status` stuck at
'pendingVerification', the documents endpoint's new/active check never
fires: `verificationStatus` stays 'rejected', and a subsequent review is
refused, so the resubmission never returns to pending review. -/
theorem rejection_resubmission_run :
    uploadDocument activeTask doc1 =
      { activeTask with submittedDocuments := [doc1], status := "pendingVerification",
                        verificationStatus := "pending" } ∧
    verifyTask (uploadDocument activeTask doc1) "rejected" 7 = .ok rejectedTask ∧
    rejectedTask.active = true ∧
    rejectedTask.newTask = false ∧
    rejectedTask.verificationStatus = "rejected" ∧
    uploadDocument rejectedTask doc2 =
      { rejectedTask with submittedDocuments := [doc1, doc2] } ∧
    (uploadDocument rejectedTask doc2).verificationStatus = "rejected" ∧
    verifyTask (uploadDocument rejectedTask doc2) "completed" 9 =
      .error .notPendingReview := by
  refine ⟨rfl, rfl, rfl, rfl, rfl, rfl, rfl, rfl⟩

/-- Helper: after one sweep step, a task no longer matches the sweep query. -/
theorem sweepTaskStep_no_match (t : Task) (now : Int) :
    taskMatchesExpired (sweepTaskStep t now).1 now = false := by
  unfold sweepTaskStep
  split
  · rename_i h
    cases hc : t.completed <;> cases hf : t.failed <;>
      simp_all [taskMatchesExpired]
  · split
    · simp [taskMatchesExpired, expireTaskUpdate]
    · rename_i h2
      rw [Bool.not_eq_true] at h2
      simp [taskMatchesExpired, h2]

/-- Helper: no task in a swept task list matches the sweep query. -/
theorem sweepTasks_no_match (now : Int) (ts : List Task) (c : TaskCounts) :
    ∀ t2 ∈ (sweepTasks now ts c).1, taskMatchesExpired t2 now = false := by
  induction ts generalizing c with
  | nil =>
    intro t2 h
    simp [sweepTasks] at h
  | cons t ts ih =>
    intro t2 h
    simp only [sweepTasks, List.mem_cons] at h
    rcases h with rfl | h
    · exact sweepTaskStep_no_match t now
    · exact ih _ _ h

/-- Helper: a swept employee has no task matching the sweep query. -/
theorem sweepEmployee_no_match (e : Employee) (now : Int) :
    ((sweepEmployee e now).1.tasks.any fun t => taskMatchesExpired t now) = false := by
  rw [List.any_eq_false]
  intro t ht
  have h := sweepTasks_no_match now e.tasks e.taskCounts t ht
  simp [h]

/-- Helper: a swept admin no longer matches the sweep's admin query. -/
theorem sweepAdmin_no_match (a : Admin) (now : Int) :
    adminMatchesExpired (sweepAdmin a now).1 now = false := by
  unfold adminMatchesExpired sweepAdmin
  rw [List.any_eq_false]
  intro e he
  simp only [List.map_map, List.mem_map, Function.comp] at he
  obtain ⟨e0, _, rfl⟩ := he
  have h := sweepEmployee_no_match e0 now
  simp [h]

/-- Helper: after the sweep's per-admin processing (matched admins swept,
others untouched), no admin matches the query. -/
theorem processedAdmin_no_match (a : Admin) (now : Int) :
    adminMatchesExpired
      (if adminMatchesExpired a now then sweepAdmin a now else (a, 0)).1 now = false := by
  by_cases h : adminMatchesExpired a now = true
  · rw [if_pos h]
    exact sweepAdmin_no_match a now
  · rw [if_neg h]
    rw [Bool.not_eq_true] at h
    exact h

/-- Helper: the sweep endpoint on a population with no matching admin
returns the population unchanged and an updated count of zero. -/
theorem checkExpired_eq_of_no_match (l : List Admin) (now : Int)
    (h : ∀ a ∈ l, adminMatchesExpired a now = false) :
    checkExpired l now = (l, 0) := by
  induction l with
  | nil => rfl
  | cons a l ih =>
    have ha : adminMatchesExpired a now = false := h a (List.mem_cons_self a l)
    have ih2 := ih fun a2 h2 => h a2 (List.mem_cons_of_mem _ h2)
    simp only [checkExpired, List.map_cons, ha, Bool.false_eq_true, if_false,
               List.sum_cons] at ih2 ⊢
    rw [Prod.mk.injEq] at ih2 ⊢
    exact ⟨by rw [ih2.1], by rw [ih2.2]⟩

/-- C7: the expiration sweep is idempotent — running `check-expired` again
immediately on the population produced by a first run updates no task, no
counter, and reports an updated count of zero. -/
theorem sweep_idempotent (admins : List Admin) (now : Int) :
    checkExpired (checkExpired admins now).1 now = ((checkExpired admins now).1, 0) := by
  apply checkExpired_eq_of_no_match
  intro a ha
  simp only [checkExpired, List.map_map, List.mem_map, Function.comp] at ha
  obtain ⟨a0, _, rfl⟩ := ha
  exact processedAdmin_no_match a0 now

end EMS
